import Mathlib

/-!
Shallow embedding of the wspBackend repository (two FastAPI services backed by
in-memory lists) and proofs about its CRUD and query behaviour.

Python semantics notes on the embedding:
  - Python integers are unbounded, so every `int` field is modelled as `Int`.
  - `date` values are only ever compared with `<=` / `>=`, so a date is
    modelled as an `Int` (an ordinal day number); this preserves exactly the
    comparisons the code performs.
  - `float` (the maintenance `cost`) is never inspected or computed with by
    any function in the repository; it is carried around opaquely, so it is
    modelled as `Int` (only construction and structural equality matter).
  - The module-level mutable lists (`garages_db`, `cars_db`, ...) become
    explicit state threaded through the functions: a mutating function takes
    the list and returns the (result, new list) pair.
  - No code path in the repository mutates a `GarageDTO` object in place:
    `update_garage_in_db` replaces the list slot with a freshly constructed
    object and `delete_garage_from_db` pops the slot.  Hence value semantics
    for DTOs is observationally faithful, including for the garage objects
    aliased into a `CarDTO.garages` list.
  - `raise HTTPException(status_code=404, detail=...)` becomes an
    `Except (Nat × String)` error result, the state being returned unchanged
    at the point of the raise.
  - Python truthiness in `if city:` / `if garageId:` guards: an optional
    string parameter is truthy iff it is present and nonempty, an optional
    int parameter is truthy iff it is present and nonzero.  The embedding
    spells these guards out with explicit matches.
  - `str.lower()` is modelled by `String.toLower` (the repository only ever
    lowercases before an equality test).
-/

namespace GarageNCar

/-- Input DTO of `POST /garages` (file garageNcar.py). -/
structure GarageCreateDTO where
  name : String
  location : String
  city : String
  capacity : Int
deriving DecidableEq

/-- Input DTO of `POST /cars` (file garageNcar.py). -/
structure CarCreateDTO where
  make : String
  model : String
  productionYear : Int
  licensePlate : String
  garageIds : List Int
deriving DecidableEq

/-- Input DTO for maintenance records (file garageNcar.py). -/
structure MaintenanceCreateDTO where
  carId : Int
  date : Int
  description : String
  cost : Int
deriving DecidableEq

/-- Output DTO for garages (file garageNcar.py). -/
structure GarageDTO where
  id : Int
  name : String
  location : String
  city : String
  capacity : Int
deriving DecidableEq

/-- Output DTO for cars; `garages` holds the garage snapshots resolved at
create/update time (file garageNcar.py). -/
structure CarDTO where
  id : Int
  make : String
  model : String
  productionYear : Int
  licensePlate : String
  garages : List GarageDTO
deriving DecidableEq

/-- Output DTO for maintenance records (file garageNcar.py). -/
structure MaintenanceDTO where
  id : Int
  carId : Int
  date : Int
  description : String
  cost : Int
deriving DecidableEq

/-- `get_garage_by_id`: linear scan of `garages_db`, first garage whose `id`
matches, else `None` (garageNcar.py lines 73-77). -/
def get_garage_by_id (garages_db : List GarageDTO) (garage_id : Int) :
    Option GarageDTO :=
  match garages_db with
  | [] => none
  | garage :: rest =>
    if garage.id = garage_id then some garage
    else get_garage_by_id rest garage_id

/-- `add_garage_to_db`: assigns id `len(garages_db) + 1`, builds the entity
from the payload, appends it, returns it (garageNcar.py lines 79-83). -/
def add_garage_to_db (garages_db : List GarageDTO) (dto : GarageCreateDTO) :
    GarageDTO × List GarageDTO :=
  let garage_id : Int := (garages_db.length : Int) + 1
  let new_garage : GarageDTO :=
    ⟨garage_id, dto.name, dto.location, dto.city, dto.capacity⟩
  (new_garage, garages_db ++ [new_garage])

/-- `update_garage_in_db`: replaces the first slot whose `id` matches with
the given entity and returns that entity, else `None` with the list
unchanged (garageNcar.py lines 85-90). -/
def update_garage_in_db (garages_db : List GarageDTO) (garage_id : Int)
    (garage_dto : GarageDTO) : Option GarageDTO × List GarageDTO :=
  match garages_db with
  | [] => (none, [])
  | existing :: rest =>
    if existing.id = garage_id then (some garage_dto, garage_dto :: rest)
    else
      ((update_garage_in_db rest garage_id garage_dto).1,
        existing :: (update_garage_in_db rest garage_id garage_dto).2)

/-- `delete_garage_from_db`: pops the first slot whose `id` matches and
returns the popped entity, else `None` with the list unchanged
(garageNcar.py lines 92-96). -/
def delete_garage_from_db (garages_db : List GarageDTO) (garage_id : Int) :
    Option GarageDTO × List GarageDTO :=
  match garages_db with
  | [] => (none, [])
  | garage :: rest =>
    if garage.id = garage_id then (some garage, rest)
    else
      ((delete_garage_from_db rest garage_id).1,
        garage :: (delete_garage_from_db rest garage_id).2)

/-- `get_car_by_id`: linear scan of `cars_db` (garageNcar.py lines 99-103). -/
def get_car_by_id (cars_db : List CarDTO) (car_id : Int) : Option CarDTO :=
  match cars_db with
  | [] => none
  | car :: rest =>
    if car.id = car_id then some car else get_car_by_id rest car_id

/-- `add_car_to_db`: assigns id `len(cars_db) + 1`, resolves each supplied
garage id against `garages_db` appending the found snapshots in order and
silently skipping missing ones, appends the car, returns it
(garageNcar.py lines 105-114). -/
def add_car_to_db (garages_db : List GarageDTO) (cars_db : List CarDTO)
    (dto : CarCreateDTO) : CarDTO × List CarDTO :=
  let car_id : Int := (cars_db.length : Int) + 1
  let garages : List GarageDTO :=
    dto.garageIds.foldl
      (fun acc gid =>
        match get_garage_by_id garages_db gid with
        | some garage => acc ++ [garage]
        | none => acc)
      []
  let new_car : CarDTO :=
    ⟨car_id, dto.make, dto.model, dto.productionYear, dto.licensePlate,
      garages⟩
  (new_car, cars_db ++ [new_car])

/-- `update_car_in_db`: replaces the first slot whose `id` matches
(garageNcar.py lines 116-121). -/
def update_car_in_db (cars_db : List CarDTO) (car_id : Int)
    (car_dto : CarDTO) : Option CarDTO × List CarDTO :=
  match cars_db with
  | [] => (none, [])
  | existing :: rest =>
    if existing.id = car_id then (some car_dto, car_dto :: rest)
    else
      ((update_car_in_db rest car_id car_dto).1,
        existing :: (update_car_in_db rest car_id car_dto).2)

/-- `delete_car_from_db`: pops the first slot whose `id` matches
(garageNcar.py lines 123-127). -/
def delete_car_from_db (cars_db : List CarDTO) (car_id : Int) :
    Option CarDTO × List CarDTO :=
  match cars_db with
  | [] => (none, [])
  | car :: rest =>
    if car.id = car_id then (some car, rest)
    else
      ((delete_car_from_db rest car_id).1,
        car :: (delete_car_from_db rest car_id).2)

/-- `add_maintenance_to_db`: assigns id `len(maintenance_db) + 1`, appends,
returns (garageNcar.py lines 137-141). -/
def add_maintenance_to_db (maintenance_db : List MaintenanceDTO)
    (dto : MaintenanceCreateDTO) : MaintenanceDTO × List MaintenanceDTO :=
  let maintenance_id : Int := (maintenance_db.length : Int) + 1
  let new_maintenance : MaintenanceDTO :=
    ⟨maintenance_id, dto.carId, dto.date, dto.description, dto.cost⟩
  (new_maintenance, maintenance_db ++ [new_maintenance])

/-- `delete_maintenance_from_db`: pops the first slot whose `id` matches
(garageNcar.py lines 150-154). -/
def delete_maintenance_from_db (maintenance_db : List MaintenanceDTO)
    (maintenance_id : Int) : Option MaintenanceDTO × List MaintenanceDTO :=
  match maintenance_db with
  | [] => (none, [])
  | m :: rest =>
    if m.id = maintenance_id then (some m, rest)
    else
      ((delete_maintenance_from_db rest maintenance_id).1,
        m :: (delete_maintenance_from_db rest maintenance_id).2)

/-- Route `GET /garages` (garageNcar.py lines 156-161).  The guard is
Python truthiness: `if city:` filters only when the parameter is present
and nonempty. -/
def get_garages (garages_db : List GarageDTO) (city : Option String) :
    List GarageDTO :=
  match city with
  | some c =>
    if c = "" then garages_db
    else garages_db.filter (fun garage => garage.city.toLower == c.toLower)
  | none => garages_db

/-- Route `PUT /garages/{garage_id}` (garageNcar.py lines 168-181): looks the
garage up, raises 404 if absent, otherwise builds a fresh `GarageDTO` with
the path id and the payload fields, stores it via `update_garage_in_db`,
and returns it (a second 404 guard covers the `None` result). -/
def update_garage (garages_db : List GarageDTO) (garage_id : Int)
    (garage_dto : GarageCreateDTO) :
    Except (Nat × String) GarageDTO × List GarageDTO :=
  match get_garage_by_id garages_db garage_id with
  | none => (.error (404, "Garage not found"), garages_db)
  | some _ =>
    let updated_garage : GarageDTO :=
      ⟨garage_id, garage_dto.name, garage_dto.location, garage_dto.city,
        garage_dto.capacity⟩
    match update_garage_in_db garages_db garage_id updated_garage with
    | (none, db') => (.error (404, "Garage not found"), db')
    | (some u, db') => (.ok u, db')

/-- Route `DELETE /garages/{garage_id}` (garageNcar.py lines 183-188):
maps the `None` result of `delete_garage_from_db` to a 404. -/
def delete_garage (garages_db : List GarageDTO) (garage_id : Int) :
    Except (Nat × String) GarageDTO × List GarageDTO :=
  match delete_garage_from_db garages_db garage_id with
  | (none, db') => (.error (404, "Garage not found"), db')
  | (some g, db') => (.ok g, db')

/-- Route `GET /cars` (garageNcar.py lines 191-213): applies the four
optional filters sequentially; each guard is Python truthiness, so a
present-but-empty string or a present-but-zero integer skips its filter. -/
def get_cars (cars_db : List CarDTO) (carMake : Option String)
    (garageId : Option Int) (fromYear : Option Int) (toYear : Option Int) :
    List CarDTO :=
  let filtered_cars := cars_db
  let filtered_cars :=
    match carMake with
    | some m =>
      if m = "" then filtered_cars
      else filtered_cars.filter (fun car => car.make.toLower == m.toLower)
    | none => filtered_cars
  let filtered_cars :=
    match garageId with
    | some gid =>
      if gid = 0 then filtered_cars
      else
        filtered_cars.filter
          (fun car => car.garages.any (fun garage => garage.id == gid))
    | none => filtered_cars
  let filtered_cars :=
    match fromYear with
    | some y =>
      if y = 0 then filtered_cars
      else filtered_cars.filter (fun car => decide (y ≤ car.productionYear))
    | none => filtered_cars
  let filtered_cars :=
    match toYear with
    | some y =>
      if y = 0 then filtered_cars
      else filtered_cars.filter (fun car => decide (car.productionYear ≤ y))
    | none => filtered_cars
  filtered_cars

/-- Route `PUT /cars/{car_id}` (garageNcar.py lines 220-237): looks the car
up, raises 404 if absent, rebuilds the garage snapshot list from the payload
garage ids (silently skipping missing ones), stores via `update_car_in_db`,
returns the updated car. -/
def update_car (garages_db : List GarageDTO) (cars_db : List CarDTO)
    (car_id : Int) (car_dto : CarCreateDTO) :
    Except (Nat × String) CarDTO × List CarDTO :=
  match get_car_by_id cars_db car_id with
  | none => (.error (404, "Car not found"), cars_db)
  | some _ =>
    let garages : List GarageDTO :=
      car_dto.garageIds.foldl
        (fun acc gid =>
          match get_garage_by_id garages_db gid with
          | some garage => acc ++ [garage]
          | none => acc)
        []
    let updated_car : CarDTO :=
      ⟨car_id, car_dto.make, car_dto.model, car_dto.productionYear,
        car_dto.licensePlate, garages⟩
    match (update_car_in_db cars_db car_id updated_car).1 with
    | none => (.error (404, "Car not found"),
        (update_car_in_db cars_db car_id updated_car).2)
    | some u => (.ok u, (update_car_in_db cars_db car_id updated_car).2)

/-- The combined mutable state of garageNcar.py (its three module-level
lists). -/
structure DB where
  garages : List GarageDTO
  cars : List CarDTO
  maintenance : List MaintenanceDTO
deriving DecidableEq

/-- The empty initial state of the process (all three lists start empty). -/
def DB.empty : DB := ⟨[], [], []⟩

/-- `add_garage_to_db` acting on the combined state. -/
def DB.addGarage (db : DB) (dto : GarageCreateDTO) : GarageDTO × DB :=
  let (g, gs) := add_garage_to_db db.garages dto
  (g, { db with garages := gs })

/-- `delete_garage_from_db` acting on the combined state. -/
def DB.deleteGarage (db : DB) (garage_id : Int) : Option GarageDTO × DB :=
  let (r, gs) := delete_garage_from_db db.garages garage_id
  (r, { db with garages := gs })

/-- `update_garage_in_db` acting on the combined state. -/
def DB.updateGarage (db : DB) (garage_id : Int) (garage_dto : GarageDTO) :
    Option GarageDTO × DB :=
  let (r, gs) := update_garage_in_db db.garages garage_id garage_dto
  (r, { db with garages := gs })

/-- `add_car_to_db` acting on the combined state. -/
def DB.addCar (db : DB) (dto : CarCreateDTO) : CarDTO × DB :=
  let (c, cs) := add_car_to_db db.garages db.cars dto
  (c, { db with cars := cs })

/-- `delete_car_from_db` acting on the combined state. -/
def DB.deleteCar (db : DB) (car_id : Int) : Option CarDTO × DB :=
  let (r, cs) := delete_car_from_db db.cars car_id
  (r, { db with cars := cs })

/-- `add_maintenance_to_db` acting on the combined state. -/
def DB.addMaintenance (db : DB) (dto : MaintenanceCreateDTO) :
    MaintenanceDTO × DB :=
  let (m, ms) := add_maintenance_to_db db.maintenance dto
  (m, { db with maintenance := ms })

/-- `delete_maintenance_from_db` acting on the combined state. -/
def DB.deleteMaintenance (db : DB) (maintenance_id : Int) :
    Option MaintenanceDTO × DB :=
  let (r, ms) := delete_maintenance_from_db db.maintenance maintenance_id
  (r, { db with maintenance := ms })

/-- One sequential create or delete operation against the garageNcar.py
process, as quantified over by the id-uniqueness claim. -/
inductive Op where
  | createGarage (dto : GarageCreateDTO)
  | deleteGarage (garage_id : Int)
  | createCar (dto : CarCreateDTO)
  | deleteCar (car_id : Int)
  | createMaintenance (dto : MaintenanceCreateDTO)
  | deleteMaintenance (maintenance_id : Int)
deriving DecidableEq

/-- Effect of one operation on the combined state. -/
def Op.step (db : DB) : Op → DB
  | .createGarage dto => (db.addGarage dto).2
  | .deleteGarage gid => (db.deleteGarage gid).2
  | .createCar dto => (db.addCar dto).2
  | .deleteCar cid => (db.deleteCar cid).2
  | .createMaintenance dto => (db.addMaintenance dto).2
  | .deleteMaintenance mid => (db.deleteMaintenance mid).2

/-- The ids returned by the garage creates in an operation sequence, in
order of execution. -/
def garageCreatedIds (db : DB) : List Op → List Int
  | [] => []
  | op :: ops =>
    match op with
    | .createGarage dto => (db.addGarage dto).1.id :: garageCreatedIds (op.step db) ops
    | _ => garageCreatedIds (op.step db) ops

/-- The ids returned by the car creates in an operation sequence. -/
def carCreatedIds (db : DB) : List Op → List Int
  | [] => []
  | op :: ops =>
    match op with
    | .createCar dto => (db.addCar dto).1.id :: carCreatedIds (op.step db) ops
    | _ => carCreatedIds (op.step db) ops

/-- The ids returned by the maintenance creates in an operation sequence. -/
def maintenanceCreatedIds (db : DB) : List Op → List Int
  | [] => []
  | op :: ops =>
    match op with
    | .createMaintenance dto =>
      (db.addMaintenance dto).1.id :: maintenanceCreatedIds (op.step db) ops
    | _ => maintenanceCreatedIds (op.step db) ops

/-- Whether an operation is a delete on the garage collection. -/
def Op.isDeleteGarage : Op → Bool
  | .deleteGarage _ => true
  | _ => false

/-- Whether an operation is a delete on the car collection. -/
def Op.isDeleteCar : Op → Bool
  | .deleteCar _ => true
  | _ => false

/-- Whether an operation is a delete on the maintenance collection. -/
def Op.isDeleteMaintenance : Op → Bool
  | .deleteMaintenance _ => true
  | _ => false

/-- Route `GET /cars/dailyAvailabilityReport` (garageNcar.py lines 250-253):
ignores both date parameters and returns `garages_db`, mutating nothing. -/
def get_car_report (db : DB) (start_date end_date : Int) :
    List GarageDTO × DB :=
  let _ := start_date
  let _ := end_date
  (db.garages, db)

/-- Running a sequence of create and delete operations from a given state. -/
def runOps (db : DB) (ops : List Op) : DB :=
  ops.foldl Op.step db

/-- The index of the first slot whose garage carries the given id — the
"position located by id" at which the update contract stores the rebuilt
entity; meaningful when such a slot exists. -/
def firstMatchIdx (garages_db : List GarageDTO) (garage_id : Int) : Nat :=
  match garages_db with
  | [] => 0
  | g :: rest =>
    if g.id = garage_id then 0 else firstMatchIdx rest garage_id + 1

/-- The car listing as the spec words it: one conjunctive pass in which
each of the four predicates is active exactly when its parameter is
supplied. -/
def listCarsSpec (cars_db : List CarDTO) (carMake : Option String)
    (garageId : Option Int) (fromYear : Option Int) (toYear : Option Int) :
    List CarDTO :=
  cars_db.filter fun car =>
    (match carMake with
      | some m => car.make.toLower == m.toLower
      | none => true) &&
    (match garageId with
      | some gid => car.garages.any fun garage => garage.id == gid
      | none => true) &&
    (match fromYear with
      | some y => decide (y ≤ car.productionYear)
      | none => true) &&
    (match toYear with
      | some y => decide (car.productionYear ≤ y)
      | none => true)

end GarageNCar

namespace GarageList

/-- Output DTO for report entries (file garageList.py). -/
structure GarageReportEntryDTO where
  date : Int
  requests : Int
  availableCapacity : Int
deriving DecidableEq

/-- Route `GET /garages/dailyAvailabilityReport` (garageList.py lines
121-129): appends one fabricated entry carrying the date of the call,
requests 10 and availableCapacity 50 to `reports_db`, then returns every
entry of the grown log whose date lies in the inclusive
[start_date, end_date] range.  `todayDate` models the value of
`date.today()` at the moment of the call; `garageId` is accepted and never
read. -/
def get_garage_report (reports_db : List GarageReportEntryDTO)
    (todayDate : Int) (garageId : Int) (start_date end_date : Int) :
    List GarageReportEntryDTO × List GarageReportEntryDTO :=
  let _ := garageId
  let reports_db' := reports_db ++ [⟨todayDate, 10, 50⟩]
  let filtered :=
    reports_db'.filter
      (fun report =>
        decide (start_date ≤ report.date) && decide (report.date ≤ end_date))
  (filtered, reports_db')

end GarageList

open GarageNCar GarageList

namespace GarageNCar

/-- If no stored garage carries the requested id, the lookup scan returns
`none`. -/
lemma get_garage_by_id_eq_none_of_no_match (garages_db : List GarageDTO)
    (garage_id : Int) (h : ∀ g ∈ garages_db, g.id ≠ garage_id) :
    get_garage_by_id garages_db garage_id = none := by
  induction garages_db with
  | nil => rfl
  | cons g rest ih =>
    rw [get_garage_by_id, if_neg (h g (List.mem_cons_self g rest))]
    exact ih fun x hx => h x (List.mem_cons_of_mem g hx)

/-- If no stored garage carries the requested id, the delete scan returns
`none` and rebuilds the list unchanged. -/
lemma delete_garage_from_db_of_no_match (garages_db : List GarageDTO)
    (garage_id : Int) (h : ∀ g ∈ garages_db, g.id ≠ garage_id) :
    delete_garage_from_db garages_db garage_id = (none, garages_db) := by
  induction garages_db with
  | nil => rfl
  | cons g rest ih =>
    rw [delete_garage_from_db, if_neg (h g (List.mem_cons_self g rest)),
      ih fun x hx => h x (List.mem_cons_of_mem g hx)]

/-- After deleting id k from a list holding at most one garage with id k,
no garage with id k remains visible to the lookup. -/
lemma get_after_delete_of_at_most_one (garages_db : List GarageDTO)
    (garage_id : Int)
    (h : (garages_db.filter fun g => decide (g.id = garage_id)).length ≤ 1) :
    get_garage_by_id (delete_garage_from_db garages_db garage_id).2 garage_id
      = none := by
  induction garages_db with
  | nil => rfl
  | cons g rest ih =>
    rw [List.filter_cons] at h
    by_cases hg : g.id = garage_id
    · rw [delete_garage_from_db, if_pos hg]
      rw [if_pos (by simp [hg])] at h
      rw [List.length_cons] at h
      refine get_garage_by_id_eq_none_of_no_match rest garage_id
        fun x hx hxid => ?_
      have hmem : x ∈ rest.filter fun g => decide (g.id = garage_id) :=
        List.mem_filter.2 ⟨hx, by simp [hxid]⟩
      have hnil : (rest.filter fun g => decide (g.id = garage_id)) = [] :=
        List.length_eq_zero.1 (by omega)
      rw [hnil] at hmem
      exact List.not_mem_nil x hmem
    · rw [delete_garage_from_db, if_neg hg]
      show get_garage_by_id
        (g :: (delete_garage_from_db rest garage_id).2) garage_id = none
      rw [get_garage_by_id, if_neg hg]
      apply ih
      simpa [hg] using h

/-- If no prefix element carries the id of the appended garage, looking
that id up in the extended list finds the appended garage. -/
lemma get_garage_by_id_append_self (garages_db : List GarageDTO)
    (g : GarageDTO) (h : ∀ x ∈ garages_db, x.id ≠ g.id) :
    get_garage_by_id (garages_db ++ [g]) g.id = some g := by
  induction garages_db with
  | nil => rw [List.nil_append, get_garage_by_id, if_pos rfl]
  | cons x rest ih =>
    rw [List.cons_append, get_garage_by_id,
      if_neg (h x (List.mem_cons_self x rest))]
    exact ih fun y hy => h y (List.mem_cons_of_mem x hy)

/-- When the lookup finds a garage with the requested id, the update scan
stores the new entity at the first matching slot and returns it. -/
lemma update_garage_in_db_found (garages_db : List GarageDTO)
    (garage_id : Int) (v : GarageDTO)
    (h : get_garage_by_id garages_db garage_id ≠ none) :
    update_garage_in_db garages_db garage_id v
      = (some v, garages_db.set (firstMatchIdx garages_db garage_id) v) := by
  induction garages_db with
  | nil => exact absurd rfl h
  | cons g rest ih =>
    by_cases hg : g.id = garage_id
    · rw [update_garage_in_db, if_pos hg, firstMatchIdx, if_pos hg]
      rfl
    · rw [get_garage_by_id, if_neg hg] at h
      rw [update_garage_in_db, if_neg hg, firstMatchIdx, if_neg hg, ih h]
      rfl

/-- The garage-resolution loop of car create and car update equals a
filterMap of the lookup over the supplied ids: found snapshots are kept in
supplied order, missing ids contribute nothing. -/
lemma resolve_garages_eq_filterMap (garages_db : List GarageDTO)
    (ids : List Int) (acc : List GarageDTO) :
    ids.foldl
        (fun acc gid =>
          match get_garage_by_id garages_db gid with
          | some garage => acc ++ [garage]
          | none => acc)
        acc
      = acc ++ ids.filterMap (fun gid => get_garage_by_id garages_db gid) := by
  induction ids generalizing acc with
  | nil => simp
  | cons i rest ih =>
    rw [List.foldl_cons, List.filterMap_cons]
    cases hres : get_garage_by_id garages_db i with
    | none => simp only [hres, ih]
    | some g =>
      simp only [hres, ih, List.append_assoc, List.singleton_append]

/-- When the car lookup succeeds, the car update scan returns the new
entity. -/
lemma update_car_in_db_found (cars_db : List CarDTO) (car_id : Int)
    (v : CarDTO) (h : get_car_by_id cars_db car_id ≠ none) :
    (update_car_in_db cars_db car_id v).1 = some v := by
  induction cars_db with
  | nil => exact absurd rfl h
  | cons c rest ih =>
    by_cases hc : c.id = car_id
    · rw [update_car_in_db, if_pos hc]
    · rw [get_car_by_id, if_neg hc] at h
      rw [update_car_in_db, if_neg hc]
      exact ih h

/-- When the car exists, the update route returns the rebuilt car whose
garage list is the filterMap of the lookup over the payload ids. -/
lemma update_car_route_found (garages_db : List GarageDTO)
    (cars_db : List CarDTO) (car_id : Int) (dto : CarCreateDTO)
    (h : get_car_by_id cars_db car_id ≠ none) :
    (update_car garages_db cars_db car_id dto).1
      = .ok ⟨car_id, dto.make, dto.model, dto.productionYear,
          dto.licensePlate,
          dto.garageIds.filterMap fun gid =>
            get_garage_by_id garages_db gid⟩ := by
  obtain ⟨c, hc⟩ := Option.ne_none_iff_exists'.1 h
  have hfound := update_car_in_db_found cars_db car_id
    (⟨car_id, dto.make, dto.model, dto.productionYear, dto.licensePlate,
      dto.garageIds.foldl
        (fun acc gid =>
          match get_garage_by_id garages_db gid with
          | some garage => acc ++ [garage]
          | none => acc) []⟩ : CarDTO) h
  have hfold := resolve_garages_eq_filterMap garages_db dto.garageIds []
  rw [List.nil_append] at hfold
  simp only [update_car, hc, hfound]
  rw [hfold]

/-- Along a sequence free of garage deletes, every id handed out by a
garage create strictly exceeds the garage count at the start, and the
handed-out ids are pairwise distinct. -/
lemma garageCreatedIds_bounds (ops : List Op) : ∀ db : DB,
    (∀ op ∈ ops, op.isDeleteGarage = false) →
    (∀ x ∈ garageCreatedIds db ops, (db.garages.length : Int) < x) ∧
    (garageCreatedIds db ops).Nodup := by
  induction ops with
  | nil =>
    intro db _
    exact ⟨fun x hx => absurd hx (List.not_mem_nil x), List.nodup_nil⟩
  | cons op rest ih =>
    intro db h
    have hrest : ∀ o ∈ rest, o.isDeleteGarage = false :=
      fun o ho => h o (List.mem_cons_of_mem op ho)
    cases op with
    | createGarage dto =>
      obtain ⟨ihb, ihn⟩ := ih ((Op.createGarage dto).step db) hrest
      have hlen : (((Op.createGarage dto).step db).garages.length : Int)
          = (db.garages.length : Int) + 1 := by
        simp [Op.step, DB.addGarage, add_garage_to_db]
      rw [hlen] at ihb
      have hid : (db.addGarage dto).1.id = (db.garages.length : Int) + 1 := rfl
      simp only [garageCreatedIds, hid]
      constructor
      · intro x hx
        rcases List.mem_cons.1 hx with hx | hx
        · rw [hx]
          show (db.garages.length : Int) < (db.garages.length : Int) + 1
          omega
        · have := ihb x hx
          omega
      · refine List.nodup_cons.2 ⟨fun hmem => ?_, ihn⟩
        have := ihb _ hmem
        omega
    | deleteGarage gid =>
      exact absurd (h _ (List.mem_cons_self _ rest)) (by simp [Op.isDeleteGarage])
    | createCar dto => exact ih _ hrest
    | deleteCar cid => exact ih _ hrest
    | createMaintenance dto => exact ih _ hrest
    | deleteMaintenance mid => exact ih _ hrest

/-- Along a sequence free of car deletes, every id handed out by a car
create strictly exceeds the car count at the start, and the handed-out ids
are pairwise distinct. -/
lemma carCreatedIds_bounds (ops : List Op) : ∀ db : DB,
    (∀ op ∈ ops, op.isDeleteCar = false) →
    (∀ x ∈ carCreatedIds db ops, (db.cars.length : Int) < x) ∧
    (carCreatedIds db ops).Nodup := by
  induction ops with
  | nil =>
    intro db _
    exact ⟨fun x hx => absurd hx (List.not_mem_nil x), List.nodup_nil⟩
  | cons op rest ih =>
    intro db h
    have hrest : ∀ o ∈ rest, o.isDeleteCar = false :=
      fun o ho => h o (List.mem_cons_of_mem op ho)
    cases op with
    | createCar dto =>
      obtain ⟨ihb, ihn⟩ := ih ((Op.createCar dto).step db) hrest
      have hlen : (((Op.createCar dto).step db).cars.length : Int)
          = (db.cars.length : Int) + 1 := by
        simp [Op.step, DB.addCar, add_car_to_db]
      rw [hlen] at ihb
      have hid : (db.addCar dto).1.id = (db.cars.length : Int) + 1 := rfl
      simp only [carCreatedIds, hid]
      constructor
      · intro x hx
        rcases List.mem_cons.1 hx with hx | hx
        · rw [hx]
          show (db.cars.length : Int) < (db.cars.length : Int) + 1
          omega
        · have := ihb x hx
          omega
      · refine List.nodup_cons.2 ⟨fun hmem => ?_, ihn⟩
        have := ihb _ hmem
        omega
    | deleteCar cid =>
      exact absurd (h _ (List.mem_cons_self _ rest)) (by simp [Op.isDeleteCar])
    | createGarage dto => exact ih _ hrest
    | deleteGarage gid => exact ih _ hrest
    | createMaintenance dto => exact ih _ hrest
    | deleteMaintenance mid => exact ih _ hrest

/-- Along a sequence free of maintenance deletes, every id handed out by a
maintenance create strictly exceeds the maintenance count at the start, and
the handed-out ids are pairwise distinct. -/
lemma maintenanceCreatedIds_bounds (ops : List Op) : ∀ db : DB,
    (∀ op ∈ ops, op.isDeleteMaintenance = false) →
    (∀ x ∈ maintenanceCreatedIds db ops,
      (db.maintenance.length : Int) < x) ∧
    (maintenanceCreatedIds db ops).Nodup := by
  induction ops with
  | nil =>
    intro db _
    exact ⟨fun x hx => absurd hx (List.not_mem_nil x), List.nodup_nil⟩
  | cons op rest ih =>
    intro db h
    have hrest : ∀ o ∈ rest, o.isDeleteMaintenance = false :=
      fun o ho => h o (List.mem_cons_of_mem op ho)
    cases op with
    | createMaintenance dto =>
      obtain ⟨ihb, ihn⟩ := ih ((Op.createMaintenance dto).step db) hrest
      have hlen : (((Op.createMaintenance dto).step db).maintenance.length
            : Int)
          = (db.maintenance.length : Int) + 1 := by
        simp [Op.step, DB.addMaintenance, add_maintenance_to_db]
      rw [hlen] at ihb
      have hid : (db.addMaintenance dto).1.id = (db.maintenance.length : Int) + 1 := rfl
      simp only [maintenanceCreatedIds, hid]
      constructor
      · intro x hx
        rcases List.mem_cons.1 hx with hx | hx
        · rw [hx]
          show (db.maintenance.length : Int)
            < (db.maintenance.length : Int) + 1
          omega
        · have := ihb x hx
          omega
      · refine List.nodup_cons.2 ⟨fun hmem => ?_, ihn⟩
        have := ihb _ hmem
        omega
    | deleteMaintenance mid =>
      exact absurd (h _ (List.mem_cons_self _ rest))
        (by simp [Op.isDeleteMaintenance])
    | createGarage dto => exact ih _ hrest
    | deleteGarage gid => exact ih _ hrest
    | createCar dto => exact ih _ hrest
    | deleteCar cid => exact ih _ hrest

end GarageNCar

/-- C1 (amended): over every sequence of sequential create and delete
operations from the empty state, the ids returned by the creates on a
collection are pairwise distinct provided the sequence contains no delete
on that same collection — for garages, cars and maintenance records
alike. -/
theorem c1_create_ids_unique (ops : List Op) :
    ((∀ op ∈ ops, op.isDeleteGarage = false) →
      (garageCreatedIds DB.empty ops).Nodup) ∧
    ((∀ op ∈ ops, op.isDeleteCar = false) →
      (carCreatedIds DB.empty ops).Nodup) ∧
    ((∀ op ∈ ops, op.isDeleteMaintenance = false) →
      (maintenanceCreatedIds DB.empty ops).Nodup) :=
  ⟨fun h => (garageCreatedIds_bounds ops DB.empty h).2,
    fun h => (carCreatedIds_bounds ops DB.empty h).2,
    fun h => (maintenanceCreatedIds_bounds ops DB.empty h).2⟩

/-- C1 witness: a delete-free sequence of two garage creates, one car
create and one maintenance create hands out pairwise distinct ids in each
collection. -/
theorem c1_create_ids_unique_witness :
    (garageCreatedIds DB.empty
        [.createGarage ⟨"A", "L", "C", 1⟩, .createGarage ⟨"B", "L", "C", 2⟩,
          .createCar ⟨"M", "Mo", 2020, "P", [1]⟩,
          .createMaintenance ⟨1, 10, "D", 5⟩]).Nodup ∧
    (carCreatedIds DB.empty
        [.createGarage ⟨"A", "L", "C", 1⟩, .createGarage ⟨"B", "L", "C", 2⟩,
          .createCar ⟨"M", "Mo", 2020, "P", [1]⟩,
          .createMaintenance ⟨1, 10, "D", 5⟩]).Nodup ∧
    (maintenanceCreatedIds DB.empty
        [.createGarage ⟨"A", "L", "C", 1⟩, .createGarage ⟨"B", "L", "C", 2⟩,
          .createCar ⟨"M", "Mo", 2020, "P", [1]⟩,
          .createMaintenance ⟨1, 10, "D", 5⟩]).Nodup :=
  ⟨(c1_create_ids_unique _).1 (by decide),
    (c1_create_ids_unique _).2.1 (by decide),
    (c1_create_ids_unique _).2.2 (by decide)⟩

/-- C1 counterexample: the sequence create, create, delete 1, create makes
the third garage create return id 2 again (length+1 after the delete), so
the create-returned ids of a sequence holding a delete need not be
distinct. -/
theorem c1_counterexample :
    ¬ (garageCreatedIds DB.empty
        [.createGarage ⟨"A", "L", "C", 1⟩, .createGarage ⟨"B", "L", "C", 1⟩,
          .deleteGarage 1, .createGarage ⟨"D", "L", "C", 1⟩]).Nodup := by
  decide

/-- C5: updating a non-existent id yields absence, which the update route
maps to a 404 with the collection unchanged; updating an existing id
replaces the stored value at the first slot located by that id with a newly
constructed entity carrying the same id and the remaining payload fields, and
returns that entity. -/
theorem c5_update_semantics (garages_db : List GarageDTO) (garage_id : Int)
    (dto : GarageCreateDTO) :
    (get_garage_by_id garages_db garage_id = none →
      update_garage garages_db garage_id dto
        = (.error (404, "Garage not found"), garages_db)) ∧
    (get_garage_by_id garages_db garage_id ≠ none →
      update_garage garages_db garage_id dto
        = (.ok (⟨garage_id, dto.name, dto.location, dto.city, dto.capacity⟩ :
              GarageDTO),
            garages_db.set (firstMatchIdx garages_db garage_id)
              (⟨garage_id, dto.name, dto.location, dto.city, dto.capacity⟩ :
                GarageDTO))) := by
  constructor
  · intro h
    simp [update_garage, h]
  · intro h
    obtain ⟨g, hg⟩ := Option.ne_none_iff_exists'.1 h
    simp [update_garage, hg,
      update_garage_in_db_found garages_db garage_id _ h]

/-- C5 witness: updating the present id 1 stores and returns the rebuilt
entity. -/
theorem c5_update_semantics_witness :
    update_garage [(⟨1, "A", "L", "C", 3⟩ : GarageDTO)] 1 ⟨"B", "M", "D", 4⟩
      = (.ok (⟨1, "B", "M", "D", 4⟩ : GarageDTO),
          ([(⟨1, "A", "L", "C", 3⟩ : GarageDTO)]).set
            (firstMatchIdx [(⟨1, "A", "L", "C", 3⟩ : GarageDTO)] 1)
            (⟨1, "B", "M", "D", 4⟩ : GarageDTO)) :=
  (c5_update_semantics [⟨1, "A", "L", "C", 3⟩] 1 ⟨"B", "M", "D", 4⟩).2
    (by decide)

/-- C2: deleting an id with no matching garage returns None, which the
delete route maps to a 404, and leaves the collection unchanged; and from
any state holding at most one garage with id k, after
delete_garage_from_db(k) a subsequent get_garage_by_id(k) returns
absence. -/
theorem c2_delete_absence (garages_db : List GarageDTO) (garage_id : Int) :
    ((∀ g ∈ garages_db, g.id ≠ garage_id) →
      delete_garage_from_db garages_db garage_id = (none, garages_db) ∧
      delete_garage garages_db garage_id
        = (.error (404, "Garage not found"), garages_db)) ∧
    ((garages_db.filter fun g => decide (g.id = garage_id)).length ≤ 1 →
      get_garage_by_id (delete_garage_from_db garages_db garage_id).2
        garage_id = none) := by
  constructor
  · intro h
    have hd := delete_garage_from_db_of_no_match garages_db garage_id h
    exact ⟨hd, by simp [delete_garage, hd]⟩
  · exact get_after_delete_of_at_most_one garages_db garage_id

/-- C2 witness: deleting the missing id 5 from a one-garage state returns
None with the state unchanged, and after deleting the present id 1 the
lookup of id 1 returns None. -/
theorem c2_delete_absence_witness :
    delete_garage_from_db [(⟨1, "A", "L", "C", 3⟩ : GarageDTO)] 5
        = (none, [(⟨1, "A", "L", "C", 3⟩ : GarageDTO)]) ∧
    get_garage_by_id
        (delete_garage_from_db [(⟨1, "A", "L", "C", 3⟩ : GarageDTO)] 1).2 1
      = none :=
  ⟨((c2_delete_absence [⟨1, "A", "L", "C", 3⟩] 5).1 (by decide)).1,
    (c2_delete_absence [⟨1, "A", "L", "C", 3⟩] 1).2 (by decide)⟩

/-- C2 counterexample: from the reachable state produced by create, create,
delete 1, create — which holds two garages with id 2 — deleting id 2
succeeds, yet the subsequent lookup of id 2 still finds a garage, so the
for-every-state half of the claim is false. -/
theorem c2_counterexample :
    (delete_garage_from_db
        (runOps DB.empty
          [.createGarage ⟨"A", "L", "C", 1⟩, .createGarage ⟨"B", "L", "C", 1⟩,
            .deleteGarage 1, .createGarage ⟨"D", "L", "C", 1⟩]).garages
        2).1 ≠ none ∧
    get_garage_by_id
        (delete_garage_from_db
          (runOps DB.empty
            [.createGarage ⟨"A", "L", "C", 1⟩,
              .createGarage ⟨"B", "L", "C", 1⟩,
              .deleteGarage 1, .createGarage ⟨"D", "L", "C", 1⟩]).garages
          2).2 2 ≠ none := by
  decide

/-- C3 (amended): if no garage already stored carries id length+1 — as in
every state reachable without deletes — then looking up the id returned by
add_garage_to_db immediately after the insert returns exactly the inserted
entity. -/
theorem c3_insert_lookup_roundtrip (garages_db : List GarageDTO)
    (dto : GarageCreateDTO)
    (h : ∀ g ∈ garages_db, g.id ≠ (garages_db.length : Int) + 1) :
    get_garage_by_id (add_garage_to_db garages_db dto).2
        (add_garage_to_db garages_db dto).1.id
      = some (add_garage_to_db garages_db dto).1 :=
  get_garage_by_id_append_self garages_db _ h

/-- C3 witness: inserting into the empty collection and looking the
returned id up yields the inserted garage. -/
theorem c3_insert_lookup_roundtrip_witness :
    get_garage_by_id (add_garage_to_db [] ⟨"A", "L", "C", 1⟩).2
        (add_garage_to_db [] ⟨"A", "L", "C", 1⟩).1.id
      = some (add_garage_to_db [] ⟨"A", "L", "C", 1⟩).1 :=
  c3_insert_lookup_roundtrip [] ⟨"A", "L", "C", 1⟩ (by decide)

/-- C3 counterexample: from the reachable state produced by create, create,
delete 1 — a single stored garage with id 2 — a fresh insert is assigned id
2 as well, and the lookup of that id returns the old garage, not the one
the insert returned. -/
theorem c3_counterexample :
    get_garage_by_id
        (add_garage_to_db
          (runOps DB.empty
            [.createGarage ⟨"A", "L", "C", 1⟩,
              .createGarage ⟨"B", "L", "C", 1⟩, .deleteGarage 1]).garages
          ⟨"D", "L", "C", 1⟩).2
        (add_garage_to_db
          (runOps DB.empty
            [.createGarage ⟨"A", "L", "C", 1⟩,
              .createGarage ⟨"B", "L", "C", 1⟩, .deleteGarage 1]).garages
          ⟨"D", "L", "C", 1⟩).1.id
      ≠ some (add_garage_to_db
          (runOps DB.empty
            [.createGarage ⟨"A", "L", "C", 1⟩,
              .createGarage ⟨"B", "L", "C", 1⟩, .deleteGarage 1]).garages
          ⟨"D", "L", "C", 1⟩).1 := by
  decide

/-- C7: on car create, and likewise on car update of an existing car, the
garages list of the resulting car contains exactly the current snapshots of the
supplied garage ids that exist in garages_db, in the order the ids were
supplied; ids with no matching garage are skipped and no error is
reported. -/
theorem c7_garage_resolution_silent_skip (garages_db : List GarageDTO)
    (cars_db : List CarDTO) (dto : CarCreateDTO) (car_id : Int) :
    (add_car_to_db garages_db cars_db dto).1.garages
      = dto.garageIds.filterMap
          (fun gid => get_garage_by_id garages_db gid) ∧
    (get_car_by_id cars_db car_id ≠ none →
      (update_car garages_db cars_db car_id dto).1
        = .ok ⟨car_id, dto.make, dto.model, dto.productionYear,
            dto.licensePlate,
            dto.garageIds.filterMap fun gid =>
              get_garage_by_id garages_db gid⟩) := by
  constructor
  · have hfold := resolve_garages_eq_filterMap garages_db dto.garageIds []
    rw [List.nil_append] at hfold
    simpa [add_car_to_db] using hfold
  · exact update_car_route_found garages_db cars_db car_id dto

/-- C7 witness: with only garage 1 stored, creating a car with
garageIds=[1,2] resolves exactly garage 1, and updating the existing car 1
with garageIds=[1,2] returns the rebuilt car holding exactly garage 1. -/
theorem c7_garage_resolution_silent_skip_witness :
    (add_car_to_db [(⟨1, "G", "L", "C", 2⟩ : GarageDTO)] []
        ⟨"M", "Mo", 2020, "P", [1, 2]⟩).1.garages
      = [(⟨1, "G", "L", "C", 2⟩ : GarageDTO)] ∧
    (update_car [(⟨1, "G", "L", "C", 2⟩ : GarageDTO)]
        [(⟨1, "M", "Mo", 2020, "P", []⟩ : CarDTO)] 1
        ⟨"M2", "Mo2", 2021, "P2", [1, 2]⟩).1
      = .ok (⟨1, "M2", "Mo2", 2021, "P2",
          [(⟨1, "G", "L", "C", 2⟩ : GarageDTO)]⟩ : CarDTO) := by
  constructor
  · rw [(c7_garage_resolution_silent_skip [⟨1, "G", "L", "C", 2⟩] []
      ⟨"M", "Mo", 2020, "P", [1, 2]⟩ 0).1]
    decide
  · rw [(c7_garage_resolution_silent_skip [⟨1, "G", "L", "C", 2⟩]
      [⟨1, "M", "Mo", 2020, "P", []⟩] ⟨"M2", "Mo2", 2021, "P2", [1, 2]⟩
      1).2 (by decide)]
    rfl

/-- C4: the stored garage list of a car is a copy of garage data taken at car
create/update time: performing a garage update (update_garage_in_db) or a
garage delete afterwards leaves the whole car collection — hence every
garages list of every car and every field of every garage snapshot in it —
unchanged. -/
theorem c4_garage_edits_dont_touch_cars (db : DB) (garage_id : Int)
    (garage_dto : GarageDTO) :
    (db.updateGarage garage_id garage_dto).2.cars = db.cars ∧
    (db.deleteGarage garage_id).2.cars = db.cars :=
  ⟨rfl, rfl⟩

/-- C9: get_car_report returns the full garage collection unchanged for
every pair of start_date and end_date arguments, its result is independent
of both parameters, and it mutates no collection. -/
theorem c9_car_report_dead_endpoint (db : DB) (sd ed sd' ed' : Int) :
    (get_car_report db sd ed).1 = db.garages ∧
    (get_car_report db sd ed).2 = db ∧
    (get_car_report db sd ed).1 = (get_car_report db sd' ed').1 :=
  ⟨rfl, rfl, rfl⟩

/-- C10: zero and empty-string query values are treated as an absent filter:
get_cars with carMake="", garageId=0, fromYear=0 or toYear=0 equals the call
with that parameter omitted, and get_garages with city="" returns the whole
garage collection. -/
theorem c10_falsy_params_treated_as_absent (cars_db : List CarDTO)
    (garages_db : List GarageDTO) (carMake : Option String)
    (garageId fromYear toYear : Option Int) :
    get_cars cars_db (some "") garageId fromYear toYear
      = get_cars cars_db none garageId fromYear toYear ∧
    get_cars cars_db carMake (some 0) fromYear toYear
      = get_cars cars_db carMake none fromYear toYear ∧
    get_cars cars_db carMake garageId (some 0) toYear
      = get_cars cars_db carMake garageId none toYear ∧
    get_cars cars_db carMake garageId fromYear (some 0)
      = get_cars cars_db carMake garageId fromYear none ∧
    get_garages garages_db (some "") = garages_db := by
  refine ⟨?_, ?_, ?_, ?_, ?_⟩ <;> simp [get_cars, get_garages]

/-- C6 (amended): whenever each supplied filter value is effective under
the truthiness guards of the route (a supplied make is nonempty, supplied ids
and year bounds are nonzero), get_cars returns exactly the cars of
cars_db, in storage order, satisfying the conjunction of the four
predicates, each applied only when its parameter is supplied. -/
theorem c6_filters_conjunctive (cars_db : List CarDTO)
    (carMake : Option String) (garageId fromYear toYear : Option Int)
    (hm : carMake ≠ some "") (hg : garageId ≠ some 0)
    (hf : fromYear ≠ some 0) (ht : toYear ≠ some 0) :
    get_cars cars_db carMake garageId fromYear toYear
      = listCarsSpec cars_db carMake garageId fromYear toYear := by
  rcases carMake with _ | m <;> rcases garageId with _ | gid <;>
    rcases fromYear with _ | fy <;> rcases toYear with _ | ty <;>
    simp_all [get_cars, listCarsSpec, List.filter_filter, Bool.and_assoc,
      Bool.and_comm, Bool.and_left_comm]

/-- C6 witness: with all four filters supplied and effective, the route
output coincides with the conjunctive one-pass filter. -/
theorem c6_filters_conjunctive_witness :
    get_cars
        [(⟨1, "Toyota", "Corolla", 2021, "P1",
            [(⟨1, "G", "L", "C", 2⟩ : GarageDTO)]⟩ : CarDTO),
          (⟨2, "Honda", "Civic", 2019, "P2", []⟩ : CarDTO)]
        (some "toyota") (some 1) (some 2020) (some 2022)
      = listCarsSpec
          [(⟨1, "Toyota", "Corolla", 2021, "P1",
              [(⟨1, "G", "L", "C", 2⟩ : GarageDTO)]⟩ : CarDTO),
            (⟨2, "Honda", "Civic", 2019, "P2", []⟩ : CarDTO)]
          (some "toyota") (some 1) (some 2020) (some 2022) :=
  c6_filters_conjunctive _ (some "toyota") (some 1) (some 2020) (some 2022)
    (by decide) (by decide) (by decide) (by decide)

/-- C6 counterexample: with garageId supplied as 0 the route skips the
garage filter entirely (Python truthiness), so its result differs from the
claimed conjunctive filter, which would reject a car whose garages list
holds no garage with id 0. -/
theorem c6_counterexample :
    get_cars [(⟨1, "a", "m", 2020, "p", []⟩ : CarDTO)]
        none (some 0) none none
      ≠ listCarsSpec [(⟨1, "a", "m", 2020, "p", []⟩ : CarDTO)]
          none (some 0) none none := by
  decide

/-- C8: every get_garage_report call appends exactly one fabricated entry
(the date of the call, requests 10, availableCapacity 50) to the shared
report log, returns exactly the log entries whose date lies in the
inclusive [start_date, end_date] range, ignores garageId, and a second
call on the grown log with the same date bounds returns a list at least as
long. -/
theorem c8_garage_report_stub (reports_db : List GarageReportEntryDTO)
    (todayDate garageId start_date end_date : Int) :
    (get_garage_report reports_db todayDate garageId start_date end_date).2
      = reports_db ++ [⟨todayDate, 10, 50⟩] ∧
    (get_garage_report reports_db todayDate garageId start_date end_date).1
      = ((get_garage_report reports_db todayDate garageId start_date
            end_date).2).filter
          (fun report =>
            decide (start_date ≤ report.date)
              && decide (report.date ≤ end_date)) ∧
    (∀ garageId' : Int,
      (get_garage_report reports_db todayDate garageId' start_date
          end_date).1
        = (get_garage_report reports_db todayDate garageId start_date
            end_date).1) ∧
    (∀ todayDate' garageId' : Int,
      (get_garage_report reports_db todayDate garageId start_date
          end_date).1.length
        ≤ (get_garage_report
            (get_garage_report reports_db todayDate garageId start_date
              end_date).2
            todayDate' garageId' start_date end_date).1.length) := by
  refine ⟨rfl, rfl, fun _ => rfl, fun td g => ?_⟩
  simp only [get_garage_report, List.filter_append, List.length_append]
  exact Nat.le_add_right _ _
